import Mathlib

/-!
Verification of the guv reactor core: the `Hub` event-loop wrapper over the
pyuv backend (src/guv/hubs/pyuv.py) and the `trampoline` suspend/resume
primitive (src/guv/hubs/trampoline.py).

The embedding is shallow: Python objects become Lean structures, mutation
becomes explicit state passing, and a Python function that may raise becomes
a function into `Except Exc _` (or a pair carrying the post-state, since in
Python the mutations performed before a raise persist).  Behaviour of the
greenlet switch and of the pyuv loop is a parameter of the corresponding
function: `Hub.run` takes the loop body as an argument, `trampoline` takes
the outcome of `hub.switch()` as an argument, covering normal resumption,
timeout-exception resumption and externally injected exceptions uniformly.

Pieces of the repository that are referenced but whose files are not part of
the sources (guv/const.py, guv/hubs/abc.py, guv/hubs/watchers.py, the pyuv
backend itself) are modelled from the spec; each such definition says so in
its doc comment.
-/

namespace Guv

/-- Python exceptions that the modelled code can raise. `userExc n` stands for
an arbitrary externally-injected or callback-raised exception. -/
inductive Exc where
  | runtimeError (msg : String)
  | assertionError (msg : String)
  | handleClosedError
  | attributeError
  | keyboardInterrupt
  | timeoutExc
  | userExc (n : Nat)
deriving DecidableEq, Repr

/-- Modelled from the spec: the backend contract (§6) — a pyuv handle
(`pyuv.Poll` / `pyuv.Timer`) with its loop-keepalive flag `ref`, its
active/closed lifecycle flags, and the event mask it was started with. -/
structure UvHandle where
  ref : Bool
  active : Bool
  closed : Bool
  mask : Nat
deriving DecidableEq, Repr

/-- Teardown operations on a backend handle, recorded so the order in which
`Hub.remove` performs them is observable. -/
inductive UvOp where
  | refFalse
  | stop
  | close
deriving DecidableEq, Repr

/-- A freshly constructed pyuv handle: referenced, not yet started, open. -/
def UvHandle.new : UvHandle := { ref := true, active := false, closed := false, mask := 0 }

/-- Assignment `handle.ref = False`: disable the handle's loop-keepalive. -/
def UvHandle.setRefFalse (h : UvHandle) : UvHandle × UvOp :=
  ({ h with ref := false }, UvOp.refFalse)

/-- Method `handle.stop()`: pyuv raises HandleClosedError on a closed handle,
otherwise the watch/timer goes inactive. -/
def UvHandle.stop (h : UvHandle) : Except Exc (UvHandle × UvOp) :=
  if h.closed then Except.error Exc.handleClosedError
  else Except.ok ({ h with active := false }, UvOp.stop)

/-- Method `handle.close()`: pyuv raises HandleClosedError on a closed handle,
otherwise the handle is released. -/
def UvHandle.close (h : UvHandle) : Except Exc (UvHandle × UvOp) :=
  if h.closed then Except.error Exc.handleClosedError
  else Except.ok ({ h with closed := true }, UvOp.close)

/-- Method `handle.start(flags, callback)`: the handle becomes active with the given
event mask. -/
def UvHandle.start (h : UvHandle) (flags : Nat) : UvHandle :=
  { h with active := true, mask := flags }

/-- Class `Timer` from src/guv/hubs/pyuv.py: wraps the backend timer handle. -/
structure Timer where
  timer_handle : UvHandle
deriving DecidableEq, Repr

/-- Method `Timer.cancel` from src/guv/hubs/pyuv.py:
if the handle is not closed, stop it and close it. -/
def Timer.cancel (t : Timer) : Except Exc Timer :=
  if t.timer_handle.closed then Except.ok t
  else
    match t.timer_handle.stop with
    | Except.error e => Except.error e
    | Except.ok (h1, _) =>
      match h1.close with
      | Except.error e => Except.error e
      | Except.ok (h2, _) => Except.ok { timer_handle := h2 }

/-- The timer returned by `Timer.cancel` (which, as proved below, never
raises): the handle stopped and closed unless it already was closed. -/
def Timer.cancelRun (t : Timer) : Timer :=
  match t.cancel with
  | Except.ok t2 => t2
  | Except.error _ => t

/-- Modelled from the spec: guv/const.py's direction constant `READ`
(§3: `direction ∈ {READ, WRITE}`); evtype is a string constant. -/
def READ : String := "read"

/-- Modelled from the spec: guv/const.py's direction constant `WRITE`. -/
def WRITE : String := "write"

/-- Modelled from the spec: guv/hubs/watchers.py's `UvFdListener` — a value
object recording a readiness-watch registration (§3 Listener): direction,
descriptor and the opaque backend handle, constructed in `Hub.add` as
`UvFdListener(evtype, fd, poll_handle)` and nulled out by `Hub.remove`. -/
structure UvFdListener where
  evtype : String
  fd : Nat
  handle : Option UvHandle
deriving DecidableEq, Repr

/-- The mutable state of the `Hub` (src/guv/hubs/pyuv.py): the registry of
active listeners plus the `running`/`stopping` flags. -/
structure HubState where
  listeners : List UvFdListener
  running : Bool
  stopping : Bool
deriving DecidableEq, Repr

/-- The registry key test: whether listener `x` is registered under the
(descriptor, direction) key `(fd, evtype)`. -/
def keyMatch (fd : Nat) (evtype : String) (x : UvFdListener) : Bool :=
  x.fd = fd && x.evtype = evtype

/-- Whether the registry holds a listener for the given (descriptor,
direction) key. -/
def HubState.hasKey (st : HubState) (evtype : String) (fd : Nat) : Bool :=
  st.listeners.any (keyMatch fd evtype)

/-- Modelled from the spec: `AbstractHub._add_listener` (guv/hubs/abc.py,
called by `Hub.add`) — registers the listener after validating the
per-descriptor-per-direction uniqueness invariant (§4.1: registering a second
listener for the same (descriptor, direction) is a usage error). -/
def HubState.addListener (st : HubState) (l : UvFdListener) : Except Exc HubState :=
  if st.hasKey l.evtype l.fd then
    Except.error (Exc.runtimeError "listener already exists for this fd and event type")
  else
    Except.ok { st with listeners := st.listeners ++ [l] }

/-- Modelled from the spec: `AbstractHub._remove_listener` (guv/hubs/abc.py,
called by `Hub.remove`) — deletes the listener's registry entry; removing a
listener that is not present is a programming error that fails loudly
(§4.1 failure semantics). -/
def HubState.removeListener (st : HubState) (l : UvFdListener) : Except Exc HubState :=
  if st.hasKey l.evtype l.fd then
    Except.ok { st with
      listeners := st.listeners.filter (fun x => !(keyMatch l.fd l.evtype x)) }
  else
    Except.error (Exc.runtimeError "listener not found")

/-- Method `Hub.run` from src/guv/hubs/pyuv.py.  `loopRun` is the behaviour of
`self.loop.run(pyuv.UV_RUN_DEFAULT)`: it observes the hub state at loop
entry, may mutate it through dispatched callbacks, and either returns
normally or lets an exception propagate; the `finally` block resets the
flags on either outcome. -/
def Hub.run (st : HubState) (loopRun : HubState → Except Exc Unit × HubState) :
    Except Exc Unit × HubState :=
  if st.stopping then
    (Except.ok (), st)
  else if st.running then
    (Except.error (Exc.runtimeError "The hub's runloop is already running"), st)
  else
    let stIn := { st with running := true, stopping := false }
    let res := loopRun stIn
    (res.1, { res.2 with running := false, stopping := false })

/-- pyuv event-mask constant `pyuv.UV_READABLE`. -/
def UV_READABLE : Nat := 1

/-- pyuv event-mask constant `pyuv.UV_WRITABLE`. -/
def UV_WRITABLE : Nat := 2

/-- The `flags` computation in `Hub.add` (src/guv/hubs/pyuv.py):
`flags = 0; if evtype == READ: flags = UV_READABLE; elif evtype == WRITE:
flags = UV_WRITABLE`. -/
def uvFlags (evtype : String) : Nat :=
  if evtype = READ then UV_READABLE
  else if evtype = WRITE then UV_WRITABLE
  else 0

/-- Which of the two callbacks handed to `Hub.add` an event dispatch ends up
invoking: the ready callback `cb` or the close throwback `tb`. -/
inductive CbInvoked where
  | ready
  | close
deriving DecidableEq, Repr

/-- Function `pyuv_cb`, the poll callback nested in `Hub.add`
(src/guv/hubs/pyuv.py): pyuv invokes it as `pyuv_cb(poll_handle, events,
errno)`; the body is just `cb()` — it ignores `events` and `errno` and always
invokes the ready callback with no arguments.  The throwback `tb` is never
referenced. -/
def pyuv_cb (_events : Nat) (_errno : Int) : CbInvoked :=
  CbInvoked.ready

/-- Modelled from the spec: the callback dispatch the spec requires of the
backend boundary (§4.1 `addListener`): the close callback is invoked instead
of the ready callback when the backend reports the descriptor closed/invalid
(pyuv signals this with a negative `errno`), and the ready callback with no
arguments otherwise. -/
def specDispatch (errno : Int) : CbInvoked :=
  if errno < 0 then CbInvoked.close else CbInvoked.ready

/-- Method `Hub.add` from src/guv/hubs/pyuv.py: create a `pyuv.Poll` for `fd`,
create the `UvFdListener`, register it via `_add_listener`, then start the
poll handle with the computed flags.  In Python the listener aliases the
poll handle object, so the registered listener holds the started handle;
on a `_add_listener` failure the handle is never started and the listener
is discarded, which the error branch reflects. -/
def Hub.add (st : HubState) (evtype : String) (fd : Nat) :
    Except Exc (HubState × UvFdListener) :=
  if st.hasKey evtype fd then
    Except.error (Exc.runtimeError "listener already exists for this fd and event type")
  else
    let flags := uvFlags evtype
    let poll_handle := UvHandle.new.start flags
    let listener : UvFdListener := { evtype := evtype, fd := fd, handle := some poll_handle }
    Except.ok ({ st with listeners := st.listeners ++ [listener] }, listener)

/-- Method `Hub.remove` from src/guv/hubs/pyuv.py: `_remove_listener`, then the
critical teardown sequence `listener.handle.ref = False`,
`listener.handle.stop()`, `listener.handle.close()`, `listener.handle = None`.
Returns the outcome, the hub state, the listener as the call leaves it, and
the trace of backend teardown operations performed, in order.  Mutations made
before an exception persist, as in Python. -/
def Hub.remove (st : HubState) (l : UvFdListener) :
    Except Exc Unit × HubState × UvFdListener × List UvOp :=
  match st.removeListener l with
  | Except.error e => (Except.error e, st, l, [])
  | Except.ok st1 =>
    match l.handle with
    | none => (Except.error Exc.attributeError, st1, l, [])
    | some h =>
      let (h1, op1) := h.setRefFalse
      match h1.stop with
      | Except.error e => (Except.error e, st1, { l with handle := some h1 }, [op1])
      | Except.ok (h2, op2) =>
        match h2.close with
        | Except.error e => (Except.error e, st1, { l with handle := some h2 }, [op1, op2])
        | Except.ok (_h3, op3) =>
          (Except.ok (), st1, { l with handle := none }, [op1, op2, op3])

/-- Method `Hub.schedule_call_global` from src/guv/hubs/pyuv.py: create a
`pyuv.Timer`, start it with the one-shot delay, and wrap it in a `Timer`.
The firing behaviour of `timer_callback` is modelled separately below. -/
def Hub.schedule_call_global : Timer :=
  { timer_handle := UvHandle.new.start 0 }

/-- Function `timer_callback`, nested in `Hub.schedule_call_global`
(src/guv/hubs/pyuv.py): runs `cb(*args, **kwargs)` — whose outcome is the
parameter `cbResult` — and then, only if control reaches that point, stops
and closes the timer handle unless it is already closed.  There is no
`try/finally`: if `cb` raises, the cleanup statements never execute. -/
def timer_callback (cbResult : Except Exc Unit) (timer_handle : UvHandle) :
    Except Exc Unit × UvHandle :=
  match cbResult with
  | Except.error e => (Except.error e, timer_handle)
  | Except.ok () =>
    if timer_handle.closed then (Except.ok (), timer_handle)
    else
      match timer_handle.stop with
      | Except.error e => (Except.error e, timer_handle)
      | Except.ok (h1, _) =>
        match h1.close with
        | Except.error e => (Except.error e, h1)
        | Except.ok (h2, _) => (Except.ok (), h2)

/-- What a call to `trampoline` leaves behind: the value returned or the
exception propagated, the hub state, and the final state of the timer's
backend handle when a timeout was requested (`none` when no timer was
created). -/
structure TrampolineOutcome where
  result : Except Exc Nat
  st : HubState
  timer : Option Timer
deriving Repr

/-- Function `trampoline` from src/guv/hubs/trampoline.py.  `fromHub` is whether the
caller is the hub greenlet (`hub is current`); `switchResult` is the outcome
of `hub.switch()`: a value on readiness resumption, or an exception on
timeout resumption / close throwback / external injection.  The asserts run
first; then the optional timer is scheduled; then the listener is added
inside a `try` whose `finally` cancels the timer; the switch sits inside an
inner `try` whose `finally` removes the listener.  (`assert isinstance(fd,
int)` always holds here since `fd : Nat`.) -/
def trampoline (st : HubState) (fd : Nat) (read write : Bool)
    (timeout : Option Nat) (fromHub : Bool) (switchResult : Except Exc Nat) :
    TrampolineOutcome :=
  if fromHub then
    { result := Except.error (Exc.assertionError "do not call blocking functions from the mainloop"),
      st := st, timer := none }
  else if !(read ^^ write) then
    { result := Except.error (Exc.assertionError "only one of read/write must be True"),
      st := st, timer := none }
  else
    let timer := timeout.map (fun _ => Hub.schedule_call_global)
    let inner : Except Exc Nat × HubState :=
      match Hub.add st (if read then READ else WRITE) fd with
      | Except.error e => (Except.error e, st)
      | Except.ok (st1, listener) =>
        let (rrem, st2, _, _) := Hub.remove st1 listener
        match rrem with
        | Except.error e2 => (Except.error e2, st2)
        | Except.ok () => (switchResult, st2)
    match timer with
    | none => { result := inner.1, st := inner.2, timer := none }
    | some t =>
      match t.cancel with
      | Except.ok t2 => { result := inner.1, st := inner.2, timer := some t2 }
      | Except.error e => { result := Except.error e, st := inner.2, timer := some t }

/-! ## Helper lemmas -/

theorem filter_keep_of_any_false (xs : List UvFdListener) (p : UvFdListener → Bool)
    (h : xs.any p = false) : xs.filter (fun x => !(p x)) = xs := by
  induction xs with
  | nil => rfl
  | cons a as ih =>
    simp only [List.any_cons, Bool.or_eq_false_iff] at h
    simp [List.filter_cons, h.1, ih h.2]

theorem any_of_filter_not (xs : List UvFdListener) (p : UvFdListener → Bool) :
    (xs.filter (fun x => !(p x))).any p = false := by
  induction xs with
  | nil => rfl
  | cons a as ih =>
    by_cases hp : p a = true
    · simp [List.filter_cons, hp, ih]
    · simp only [Bool.not_eq_true] at hp
      simp [List.filter_cons, hp, List.any_cons, ih]

/-! ## Hub.run: claims C4, C5, C9 -/

/-- C9: if the `stopping` flag is true when `Hub.run` is called, it returns
immediately and silently — no reentrancy error even if `running` is true, the
backend loop is never consulted, and the state is returned unchanged. -/
theorem hub_run_stopping_silent (st : HubState)
    (loopRun : HubState → Except Exc Unit × HubState)
    (hs : st.stopping = true) :
    Hub.run st loopRun = (Except.ok (), st) := by
  simp [Hub.run, hs]

/-- C9 witness: a hub that is both running and stopping, with a loop body
that would raise if entered. -/
theorem hub_run_stopping_silent_witness :
    Hub.run ⟨[], true, true⟩ (fun s => (Except.error (Exc.userExc 1), s)) =
      (Except.ok (), ⟨[], true, true⟩) :=
  hub_run_stopping_silent ⟨[], true, true⟩ _ rfl

/-- C4 counterexample: a hub with `running = true` but `stopping = true` as
well; `run()` returns `Except.ok` silently instead of raising the reentrancy
error the claim promises for every call made while running. -/
theorem hub_run_reentrancy_counterexample :
    (⟨[], true, true⟩ : HubState).running = true ∧
    (Hub.run ⟨[], true, true⟩ (fun s => (Except.ok (), s))).1 = Except.ok () := by
  exact ⟨rfl, rfl⟩

/-- C4 (amended): `run()` called while `running = true` and `stopping = false`
raises the reentrancy error and leaves the state, both flags included,
unchanged. -/
theorem hub_run_reentrancy_error (st : HubState)
    (loopRun : HubState → Except Exc Unit × HubState)
    (hr : st.running = true) (hs : st.stopping = false) :
    Hub.run st loopRun =
      (Except.error (Exc.runtimeError "The hub's runloop is already running"), st) := by
  simp [Hub.run, hr, hs]

/-- C4 witness: concrete running, non-stopping hub. -/
theorem hub_run_reentrancy_error_witness :
    Hub.run ⟨[], true, false⟩ (fun s => (Except.ok (), s)) =
      (Except.error (Exc.runtimeError "The hub's runloop is already running"),
       ⟨[], true, false⟩) :=
  hub_run_reentrancy_error ⟨[], true, false⟩ _ rfl rfl

/-- C5: when `run()` enters the event loop (not stopping, not running), the
loop body observes the state with `running := true` and `stopping := false`,
the loop's own outcome — normal or exceptional — is propagated, and on either
exit path the returned state has `running = false` and `stopping = false`. -/
theorem hub_run_enters_loop_resets_flags (st : HubState)
    (loopRun : HubState → Except Exc Unit × HubState)
    (hs : st.stopping = false) (hr : st.running = false) :
    Hub.run st loopRun =
      ((loopRun { st with running := true, stopping := false }).1,
       { (loopRun { st with running := true, stopping := false }).2 with
         running := false, stopping := false }) ∧
    (Hub.run st loopRun).2.running = false ∧
    (Hub.run st loopRun).2.stopping = false := by
  refine ⟨by simp [Hub.run, hs, hr], ?_, ?_⟩ <;> simp [Hub.run, hs, hr]

/-- C5 witness: an idle hub whose loop body raises; the exception propagates
and both flags are false afterwards. -/
theorem hub_run_enters_loop_resets_flags_witness :
    Hub.run ⟨[], false, false⟩
        (fun s => ((Except.error (Exc.userExc 7) : Except Exc Unit), s)) =
      (Except.error (Exc.userExc 7), ⟨[], false, false⟩) := by
  have h := hub_run_enters_loop_resets_flags ⟨[], false, false⟩
      (fun s => ((Except.error (Exc.userExc 7) : Except Exc Unit), s)) rfl rfl
  exact h.1

/-! ## Timer.cancel: claim C6 -/

/-- C6: `Timer.cancel` never raises (it returns `Except.ok` of `cancelRun`),
it is idempotent (cancelling the result of a cancel changes nothing further),
and on a timer whose handle is already closed — already cancelled, or already
fired and self-closed — it is a no-op returning the timer unchanged. -/
theorem timer_cancel_idempotent_noop (t : Timer) :
    t.cancel = Except.ok t.cancelRun ∧
    t.cancelRun.cancel = Except.ok t.cancelRun ∧
    (t.timer_handle.closed = true → t.cancelRun = t) := by
  by_cases hc : t.timer_handle.closed = true
  · simp [Timer.cancel, Timer.cancelRun, hc]
  · simp only [Bool.not_eq_true] at hc
    simp [Timer.cancel, Timer.cancelRun, UvHandle.stop, UvHandle.close, hc]

/-- C6 witness: a timer whose handle is already closed (as after firing);
cancel returns it unchanged, and cancelling again still does. -/
theorem timer_cancel_idempotent_noop_witness :
    (Timer.mk ⟨true, false, true, 0⟩).timer_handle.closed = true ∧
    Timer.cancel (Timer.mk ⟨true, false, true, 0⟩) =
      Except.ok (Timer.mk ⟨true, false, true, 0⟩) := by
  have h := timer_cancel_idempotent_noop (Timer.mk ⟨true, false, true, 0⟩)
  have h2 := h.2.2 rfl
  rw [h2] at h
  exact ⟨rfl, h.1⟩

/-! ## Hub.schedule_call_global / timer_callback: claim C3 -/

/-- C3 counterexample: take the timer handle exactly as
`Hub.schedule_call_global` creates it (started, open) and fire it with a
callback that raises; `timer_callback` propagates the exception and the
handle is left neither stopped nor closed — the cleanup statements sit after
the callback with no `try/finally`. -/
theorem timer_callback_raise_skips_cleanup :
    (timer_callback (Except.error (Exc.userExc 0))
        Hub.schedule_call_global.timer_handle).1 = Except.error (Exc.userExc 0) ∧
    (timer_callback (Except.error (Exc.userExc 0))
        Hub.schedule_call_global.timer_handle).2.closed = false ∧
    (timer_callback (Except.error (Exc.userExc 0))
        Hub.schedule_call_global.timer_handle).2.active = true := by
  exact ⟨rfl, rfl, rfl⟩

/-- C3 (amended): after the timer fires, its backend handle is stopped and
closed provided the scheduled callback returns normally; a raising callback
skips the cleanup (see the counterexample). -/
theorem timer_callback_normal_cleanup (h : UvHandle) (hc : h.closed = false) :
    timer_callback (Except.ok ()) h =
      (Except.ok (), { h with active := false, closed := true }) := by
  simp [timer_callback, UvHandle.stop, UvHandle.close, hc]

/-- C3 witness: the handle as `Hub.schedule_call_global` creates it, fired
with a normally returning callback, ends stopped and closed. -/
theorem timer_callback_normal_cleanup_witness :
    timer_callback (Except.ok ()) Hub.schedule_call_global.timer_handle =
      (Except.ok (),
       { Hub.schedule_call_global.timer_handle with active := false, closed := true }) :=
  timer_callback_normal_cleanup Hub.schedule_call_global.timer_handle rfl

/-! ## Hub.add's poll callback: claim C2 -/

/-- C2: evaluation at the failing input.  pyuv reports `errno = -9`
(descriptor closed/invalid) for a registered listener, yet `pyuv_cb` — whose
body is just `cb()` — invokes the ready callback, where the claim (and
`Hub.add`'s own docstring for `tb`) requires the close callback; `tb` is
never invoked on any input. -/
theorem pyuv_cb_ignores_errno :
    pyuv_cb 0 (-9) = CbInvoked.ready ∧
    specDispatch (-9) = CbInvoked.close ∧
    pyuv_cb 0 (-9) ≠ specDispatch (-9) := by
  refine ⟨rfl, by decide, by decide⟩

/-! ## Hub.remove: claim C8 -/

theorem hub_remove_absent (st : HubState) (l : UvFdListener)
    (h : st.hasKey l.evtype l.fd = false) :
    Hub.remove st l = (Except.error (Exc.runtimeError "listener not found"), st, l, []) := by
  simp [Hub.remove, HubState.removeListener, h]

theorem hub_remove_spec (st : HubState) (l : UvFdListener) (h : UvHandle)
    (hreg : st.hasKey l.evtype l.fd = true)
    (hh : l.handle = some h) (hc : h.closed = false) :
    Hub.remove st l =
      (Except.ok (),
       { st with listeners :=
           st.listeners.filter (fun x => !(keyMatch l.fd l.evtype x)) },
       { l with handle := none },
       [UvOp.refFalse, UvOp.stop, UvOp.close]) ∧
    (Hub.remove st l).2.2.1.handle = none ∧
    (Hub.remove (Hub.remove st l).2.1 (Hub.remove st l).2.2.1).1 =
      Except.error (Exc.runtimeError "listener not found") := by
  have hmain : Hub.remove st l =
      (Except.ok (),
       { st with listeners :=
           st.listeners.filter (fun x => !(keyMatch l.fd l.evtype x)) },
       { l with handle := none },
       [UvOp.refFalse, UvOp.stop, UvOp.close]) := by
    simp [Hub.remove, HubState.removeListener, hreg, hh,
      UvHandle.setRefFalse, UvHandle.stop, UvHandle.close, hc]
  refine ⟨hmain, ?_, ?_⟩
  · rw [hmain]
  · rw [hmain]
    have hk : HubState.hasKey
        { st with listeners :=
            st.listeners.filter (fun x => !(keyMatch l.fd l.evtype x)) }
        l.evtype l.fd = false :=
      any_of_filter_not st.listeners _
    exact congrArg Prod.fst (hub_remove_absent
      { st with listeners :=
          st.listeners.filter (fun x => !(keyMatch l.fd l.evtype x)) }
      { l with handle := none } hk)

/-- C8: `Hub.remove` on a registered listener with an open handle performs
the backend teardown in exactly the order ref := false, stop, close, then
nulls the stored handle; afterwards the listener's handle is `none`, and a
second removal of the same listener fails loudly instead of silently
double-closing. -/
theorem hub_remove_teardown_order (st : HubState) (l : UvFdListener) (h : UvHandle)
    (hreg : st.hasKey l.evtype l.fd = true)
    (hh : l.handle = some h) (hc : h.closed = false) :
    Hub.remove st l =
      (Except.ok (),
       { st with listeners :=
           st.listeners.filter (fun x => !(keyMatch l.fd l.evtype x)) },
       { l with handle := none },
       [UvOp.refFalse, UvOp.stop, UvOp.close]) ∧
    (Hub.remove st l).2.2.1.handle = none ∧
    (Hub.remove (Hub.remove st l).2.1 (Hub.remove st l).2.2.1).1 =
      Except.error (Exc.runtimeError "listener not found") :=
  hub_remove_spec st l h hreg hh hc

/-- C8 witness: a hub holding one READ listener for fd 3 with an open,
started poll handle. -/
theorem hub_remove_teardown_order_witness :
    Hub.remove ⟨[⟨READ, 3, some (UvHandle.new.start 1)⟩], false, false⟩
        ⟨READ, 3, some (UvHandle.new.start 1)⟩ =
      (Except.ok (), ⟨[], false, false⟩, ⟨READ, 3, none⟩,
       [UvOp.refFalse, UvOp.stop, UvOp.close]) := by
  have h := hub_remove_teardown_order
      ⟨[⟨READ, 3, some (UvHandle.new.start 1)⟩], false, false⟩
      ⟨READ, 3, some (UvHandle.new.start 1)⟩ (UvHandle.new.start 1)
      (by decide) rfl rfl
  simpa using h.1

/-! ## Hub.add: claim C10 -/

/-- C10: `Hub.add` with an evtype that is neither READ nor WRITE does not
fail: it still registers the listener (appended to the registry) and starts
the poll watch, but with an empty event mask (flags 0) — the direction
argument is never validated at the `Hub.add` boundary. -/
theorem hub_add_unvalidated_evtype (st : HubState) (evtype : String) (fd : Nat)
    (h1 : evtype ≠ READ) (h2 : evtype ≠ WRITE)
    (hdup : st.hasKey evtype fd = false) :
    Hub.add st evtype fd =
      Except.ok
        ({ st with listeners :=
             st.listeners ++ [⟨evtype, fd, some (UvHandle.new.start 0)⟩] },
         ⟨evtype, fd, some (UvHandle.new.start 0)⟩) ∧
    (UvHandle.new.start 0).mask = 0 ∧
    (UvHandle.new.start 0).active = true := by
  refine ⟨?_, rfl, rfl⟩
  simp [Hub.add, uvFlags, hdup, h1, h2]

/-- C10 witness: evtype "both" (neither READ nor WRITE) on an empty hub still
registers a listener and starts the watch with mask 0. -/
theorem hub_add_unvalidated_evtype_witness :
    Hub.add ⟨[], false, false⟩ "both" 5 =
      Except.ok
        (⟨[⟨"both", 5, some (UvHandle.new.start 0)⟩], false, false⟩,
         ⟨"both", 5, some (UvHandle.new.start 0)⟩) := by
  have h := hub_add_unvalidated_evtype ⟨[], false, false⟩ "both" 5
      (by decide) (by decide) rfl
  simpa using h.1

/-! ## trampoline: claims C7 and C1 -/

/-- C7: `trampoline` fails immediately with an assertion error — before
creating a timer, registering a listener, or switching to the hub — when it
is invoked from the hub greenlet itself, or when the read and write flags are
both true or both false; the hub state is left untouched. -/
theorem trampoline_asserts_preconditions (st : HubState) (fd : Nat)
    (read write : Bool) (timeout : Option Nat) (fromHub : Bool)
    (switchResult : Except Exc Nat)
    (hpre : fromHub = true ∨ read = write) :
    ((trampoline st fd read write timeout fromHub switchResult).result =
        Except.error
          (Exc.assertionError "do not call blocking functions from the mainloop") ∨
     (trampoline st fd read write timeout fromHub switchResult).result =
        Except.error (Exc.assertionError "only one of read/write must be True")) ∧
    (trampoline st fd read write timeout fromHub switchResult).st = st ∧
    (trampoline st fd read write timeout fromHub switchResult).timer = none := by
  rcases hpre with h | h
  · subst h
    simp [trampoline]
  · subst h
    cases fromHub
    · cases read <;> simp [trampoline]
    · simp [trampoline]

/-- C7 witness: read and write both true, called from an ordinary greenlet. -/
theorem trampoline_asserts_preconditions_witness :
    ((trampoline ⟨[], false, false⟩ 0 true true none false (Except.ok 0)).result =
        Except.error
          (Exc.assertionError "do not call blocking functions from the mainloop") ∨
     (trampoline ⟨[], false, false⟩ 0 true true none false (Except.ok 0)).result =
        Except.error (Exc.assertionError "only one of read/write must be True")) ∧
    (trampoline ⟨[], false, false⟩ 0 true true none false (Except.ok 0)).st =
      ⟨[], false, false⟩ ∧
    (trampoline ⟨[], false, false⟩ 0 true true none false (Except.ok 0)).timer = none :=
  trampoline_asserts_preconditions ⟨[], false, false⟩ 0 true true none false
    (Except.ok 0) (Or.inr rfl)

theorem hub_add_spec (st : HubState) (evtype : String) (fd : Nat)
    (hdup : st.hasKey evtype fd = false) :
    Hub.add st evtype fd =
      Except.ok
        ({ st with listeners :=
             st.listeners ++ [⟨evtype, fd, some (UvHandle.new.start (uvFlags evtype))⟩] },
         ⟨evtype, fd, some (UvHandle.new.start (uvFlags evtype))⟩) := by
  simp [Hub.add, hdup]

theorem hub_added_hasKey (st : HubState) (evtype : String) (fd : Nat) (h : UvHandle) :
    HubState.hasKey
      { st with listeners := st.listeners ++ [⟨evtype, fd, some h⟩] } evtype fd = true := by
  simp [HubState.hasKey, keyMatch]

theorem hub_add_remove_restores (st : HubState) (evtype : String) (fd : Nat)
    (hdup : st.hasKey evtype fd = false) :
    Hub.remove
        { st with listeners :=
            st.listeners ++ [⟨evtype, fd, some (UvHandle.new.start (uvFlags evtype))⟩] }
        ⟨evtype, fd, some (UvHandle.new.start (uvFlags evtype))⟩ =
      (Except.ok (), st, ⟨evtype, fd, none⟩,
       [UvOp.refFalse, UvOp.stop, UvOp.close]) := by
  have hdup2 : st.listeners.any (keyMatch fd evtype) = false := hdup
  have h1 := (hub_remove_spec
      { st with listeners :=
          st.listeners ++ [⟨evtype, fd, some (UvHandle.new.start (uvFlags evtype))⟩] }
      ⟨evtype, fd, some (UvHandle.new.start (uvFlags evtype))⟩
      (UvHandle.new.start (uvFlags evtype))
      (hub_added_hasKey st evtype fd _) rfl rfl).1
  rw [h1]
  rw [List.filter_append, filter_keep_of_any_false _ _ hdup2]
  simp [keyMatch]

/-- C1: for every `trampoline` call whose asserts pass and whose listener
registration succeeds, and for every way `hub.switch()` resumes — normal
value, timeout exception, or externally injected exception — the listener is
removed exactly once, leaving the Hub's registry (and flags) equal to what
they were before the call, the resumption outcome is propagated unchanged,
and the timer, when a timeout was requested, has been cancelled (its backend
handle closed). -/
theorem trampoline_cleanup (st : HubState) (fd : Nat) (read write : Bool)
    (timeout : Option Nat) (switchResult : Except Exc Nat)
    (hx : read ≠ write)
    (hdup : st.hasKey (if read then READ else WRITE) fd = false) :
    (trampoline st fd read write timeout false switchResult).st = st ∧
    (trampoline st fd read write timeout false switchResult).result = switchResult ∧
    (trampoline st fd read write timeout false switchResult).timer =
      timeout.map (fun _ => Timer.cancelRun Hub.schedule_call_global) ∧
    (Timer.cancelRun Hub.schedule_call_global).timer_handle.closed = true := by
  have hadd := hub_add_spec st (if read then READ else WRITE) fd hdup
  have hrem := hub_add_remove_restores st (if read then READ else WRITE) fd hdup
  cases read <;> cases write
  · exact absurd rfl hx
  · simp only [if_neg, Bool.false_eq_true, not_false_iff, ite_false,
      UvHandle.new, UvHandle.start] at hadd hrem hdup
    rcases timeout with _ | d <;>
      simp [trampoline, hadd, hrem, Timer.cancelRun, Timer.cancel,
        UvHandle.stop, UvHandle.close, Hub.schedule_call_global, UvHandle.new,
        UvHandle.start]
  · simp only [ite_true, UvHandle.new, UvHandle.start] at hadd hrem hdup
    rcases timeout with _ | d <;>
      simp [trampoline, hadd, hrem, Timer.cancelRun, Timer.cancel,
        UvHandle.stop, UvHandle.close, Hub.schedule_call_global, UvHandle.new,
        UvHandle.start]
  · exact absurd rfl hx

/-- C1 witness: a READ trampoline with a timeout whose switch resumes by
raising the timeout exception; the registry is restored and the timer handle
is closed. -/
theorem trampoline_cleanup_witness :
    (trampoline ⟨[], false, false⟩ 3 true false (some 5) false
        (Except.error Exc.timeoutExc)).st = ⟨[], false, false⟩ ∧
    (trampoline ⟨[], false, false⟩ 3 true false (some 5) false
        (Except.error Exc.timeoutExc)).result = Except.error Exc.timeoutExc ∧
    (trampoline ⟨[], false, false⟩ 3 true false (some 5) false
        (Except.error Exc.timeoutExc)).timer =
      (some 5).map (fun _ => Timer.cancelRun Hub.schedule_call_global) ∧
    (Timer.cancelRun Hub.schedule_call_global).timer_handle.closed = true :=
  trampoline_cleanup ⟨[], false, false⟩ 3 true false (some 5)
    (Except.error Exc.timeoutExc) (by decide) rfl

end Guv
